import Mathlib

/-!
Verification of the operation objects in src/CurlOps.cc of xrdcl-pelican.

The development shallowly embeds the curl operation classes
(CurlOperation, CurlStatOp, CurlOpenOp, CurlReadOp, CurlPgReadOp) as pure
Lean functions over explicit state records.  External collaborators (the
header parser, tinyxml2, libcurl, the XrdCl handler machinery) appear as
already-decoded inputs: a header-parser state record, an optional parsed
XML tree, and a delivered-outcome value.  Logging calls are external side
effects with no influence on operation state and are not modelled.
-/

namespace Pelican

/-- Modelled from the spec: numeric status-class and error-code constants come
from the external XrdCl and XRootD protocol headers, which are not part of
this repository.  The concrete values are distinct placeholders; no claim
depends on the values, only on which constant reaches the failure path. -/
def stError : Nat := 1

/-- Modelled from the spec: XrdCl errErrorResponse error-class constant. -/
def errErrorResponse : Nat := 306

/-- Modelled from the spec: XrdCl errInternal error-class constant. -/
def errInternal : Nat := 304

/-- Modelled from the spec: XRootD kXR_ServerError protocol error number. -/
def kXR_ServerError : Nat := 3012

/-- Modelled from the spec: XRootD kXR_FSError protocol error number. -/
def kXR_FSError : Nat := 3014

/-- Modelled from the spec: XRootD kXR_isDirectory protocol error number. -/
def kXR_isDirectory : Nat := 3016

/-- Modelled from the spec: the external helper HTTPStatusIsError; per the
error taxonomy of the spec, 4xx and 5xx status codes denote HTTP errors. -/
def HTTPStatusIsError (code : Nat) : Bool := decide (400 ≤ code)

/-- A result delivered through the XrdCl response handler: a failure status or
one of the typed success payloads built by the Success overrides.  The buffer
field of chunkInfo holds the bytes the operation wrote into the caller-owned
buffer (the real code passes the buffer pointer). -/
inductive Outcome where
  | failure (errCode : Nat) (errNum : Nat) (msg : String)
  | statInfo (size : Int) (isDir : Bool)
  | chunkInfo (offset : Nat) (written : Nat) (buffer : List Nat)
  | pageInfo (offset : Nat) (written : Nat) (cksums : List Nat)
deriving DecidableEq

/-- Decoded state of the external header parser (m_headers).  Fields mirror
the accessors the operation code calls: HeadersDone, GetStatusCode,
GetStatusMessage, GetOffset, IsMultipartByterange, GetContentLength. -/
structure HeaderState where
  headersDone : Bool := false
  statusCode : Nat := 0
  statusMessage : String := ""
  offset : Nat := 0
  multipart : Bool := false
  contentLength : Int := -1
deriving DecidableEq

/-- State of a CurlReadOp: the requested (offset, length) pair m_op, the
m_written counter, the bytes copied so far into the caller-owned buffer
(bufData abstracts buffer[0 .. written)), the presence of the result handler
m_handler, the done flag, m_received_header, and the header-parser state. -/
structure ReadOpState where
  offset : Nat
  reqLen : Nat
  written : Nat := 0
  bufData : List Nat := []
  handler : Bool := true
  done : Bool := false
  receivedHeader : Bool := false
  headers : HeaderState := {}
deriving DecidableEq

/-- CurlReadOp::Fail (CurlOps.cc): appends the request offset to a non-empty
message, marks the operation done, and, when the handler is still present,
delivers the failure status through it and clears it. -/
def CurlReadOp.Fail (s : ReadOpState) (errCode errNum : Nat) (msg : String) :
    ReadOpState × Option Outcome :=
  let s1 : ReadOpState := { s with done := true }
  if s1.handler then
    let custom := if msg ≠ "" then
        msg ++ " (read operation at offset " ++ toString s.offset ++ ")"
      else msg
    ({ s1 with handler := false }, some (.failure errCode errNum custom))
  else (s1, none)

/-- CurlReadOp::Success (CurlOps.cc): marks the operation done and, when the
handler is still present, delivers a ChunkInfo(m_op.first, m_written,
m_buffer) payload through it and clears it. -/
def CurlReadOp.Success (s : ReadOpState) : ReadOpState × Option Outcome :=
  let s1 : ReadOpState := { s with done := true }
  if s1.handler then
    ({ s1 with handler := false }, some (.chunkInfo s.offset s.written s.bufData))
  else (s1, none)

/-- CurlReadOp::Write (CurlOps.cc): the body callback for one chunk.  Fails on
a multipart byterange response, on a server-reported start offset that differs
from the requested offset while nothing has been written, and on a chunk that
would overrun the requested length; otherwise copies the chunk into the
caller-owned buffer and advances m_written.  The Nat component is the return
value handed back to libcurl (the consumed byte count, 0 on failure). -/
def CurlReadOp.Write (s : ReadOpState) (chunk : List Nat) :
    ReadOpState × Option Outcome × Nat :=
  if s.headers.multipart then
    let r := CurlReadOp.Fail s errErrorResponse kXR_ServerError
      "Server responded with a multipart byterange which is not supported"
    (r.1, r.2, 0)
  else if s.written = 0 ∧ s.headers.offset ≠ s.offset then
    let r := CurlReadOp.Fail s errErrorResponse kXR_ServerError
      "Server did not return content with correct offset"
    (r.1, r.2, 0)
  else if s.reqLen < s.written + chunk.length then
    let r := CurlReadOp.Fail s errErrorResponse kXR_ServerError
      "Server sent back more data than requested"
    (r.1, r.2, 0)
  else
    ({ s with bufData := s.bufData ++ chunk, written := s.written + chunk.length },
     none, chunk.length)

/-- Iterated body callback: process a list of body chunks in order, keeping
only the evolving operation state. -/
def CurlReadOp.runWrites (s : ReadOpState) : List (List Nat) → ReadOpState
  | [] => s
  | c :: cs => CurlReadOp.runWrites (CurlReadOp.Write s c).1 cs

theorem CurlReadOp.fail_state (s : ReadOpState) (c n : Nat) (m : String) :
    (CurlReadOp.Fail s c n m).1.written = s.written ∧
    (CurlReadOp.Fail s c n m).1.bufData = s.bufData ∧
    (CurlReadOp.Fail s c n m).1.reqLen = s.reqLen ∧
    (CurlReadOp.Fail s c n m).1.offset = s.offset ∧
    (CurlReadOp.Fail s c n m).1.done = true := by
  unfold CurlReadOp.Fail
  dsimp only
  split <;> simp

theorem CurlReadOp.fail_delivers (s : ReadOpState) (c n : Nat) (m : String)
    (h : s.handler = true) :
    ∃ msg, (CurlReadOp.Fail s c n m).2 = some (.failure c n msg) := by
  unfold CurlReadOp.Fail
  dsimp only
  rw [if_pos h]
  exact ⟨_, rfl⟩

theorem CurlReadOp.write_fails (s : ReadOpState) (chunk : List Nat)
    (h : s.headers.multipart = true ∨ (s.written = 0 ∧ s.headers.offset ≠ s.offset) ∨
      s.reqLen < s.written + chunk.length) :
    ∃ m, CurlReadOp.Write s chunk =
      ((CurlReadOp.Fail s errErrorResponse kXR_ServerError m).1,
       (CurlReadOp.Fail s errErrorResponse kXR_ServerError m).2, 0) := by
  unfold CurlReadOp.Write
  by_cases h1 : s.headers.multipart = true
  · rw [if_pos h1]
    exact ⟨_, rfl⟩
  · rw [if_neg h1]
    by_cases h2 : s.written = 0 ∧ s.headers.offset ≠ s.offset
    · rw [if_pos h2]
      exact ⟨_, rfl⟩
    · rw [if_neg h2]
      by_cases h3 : s.reqLen < s.written + chunk.length
      · rw [if_pos h3]
        exact ⟨_, rfl⟩
      · exact absurd h (by simp [h1, h2, h3])

theorem CurlReadOp.write_invariant (s : ReadOpState) (chunk : List Nat)
    (h : s.written ≤ s.reqLen) :
    (CurlReadOp.Write s chunk).1.written ≤ (CurlReadOp.Write s chunk).1.reqLen := by
  by_cases hf : s.headers.multipart = true ∨ (s.written = 0 ∧ s.headers.offset ≠ s.offset) ∨
      s.reqLen < s.written + chunk.length
  · obtain ⟨m, hm⟩ := CurlReadOp.write_fails s chunk hf
    rw [hm]
    rw [(CurlReadOp.fail_state s _ _ _).1, (CurlReadOp.fail_state s _ _ _).2.2.1]
    exact h
  · push_neg at hf
    unfold CurlReadOp.Write
    rw [if_neg (by simpa using hf.1), if_neg (by
        intro hc
        exact hc.2 (hf.2.1 hc.1)), if_neg (by omega)]
    simp only
    omega

theorem CurlReadOp.runWrites_invariant (chunks : List (List Nat)) (s : ReadOpState)
    (h : s.written ≤ s.reqLen) :
    (CurlReadOp.runWrites s chunks).written ≤ (CurlReadOp.runWrites s chunks).reqLen := by
  induction chunks generalizing s with
  | nil => simpa [CurlReadOp.runWrites] using h
  | cons c cs ih =>
      simp only [CurlReadOp.runWrites]
      exact ih _ (CurlReadOp.write_invariant s c h)

/-- C2: for every read operation, written never exceeds the requested length:
starting from any state satisfying the invariant (in particular the initial
state with written = 0), the invariant holds after every chunk; and any single
chunk whose size would push written past the requested length makes the
operation fail — done is set, the libcurl return value is 0, and, when the
handler is present, a failure outcome is delivered — without copying any byte
of that chunk (written and the buffer contents are unchanged). -/
theorem c2_written_le_length (s : ReadOpState) (h : s.written ≤ s.reqLen) :
    (∀ chunks : List (List Nat),
      (CurlReadOp.runWrites s chunks).written ≤ (CurlReadOp.runWrites s chunks).reqLen) ∧
    (∀ chunk : List Nat, s.reqLen < s.written + chunk.length →
      (CurlReadOp.Write s chunk).1.written = s.written ∧
      (CurlReadOp.Write s chunk).1.bufData = s.bufData ∧
      (CurlReadOp.Write s chunk).1.done = true ∧
      (CurlReadOp.Write s chunk).2.2 = 0 ∧
      (s.handler = true →
        ∃ c n m, (CurlReadOp.Write s chunk).2.1 = some (.failure c n m))) := by
  constructor
  · intro chunks
    exact CurlReadOp.runWrites_invariant chunks s h
  · intro chunk hover
    obtain ⟨m, hm⟩ := CurlReadOp.write_fails s chunk (Or.inr (Or.inr hover))
    rw [hm]
    refine ⟨(CurlReadOp.fail_state s _ _ _).1, (CurlReadOp.fail_state s _ _ _).2.1,
      (CurlReadOp.fail_state s _ _ _).2.2.2.2, rfl, ?_⟩
    intro hh
    obtain ⟨msg, hmsg⟩ := CurlReadOp.fail_delivers s errErrorResponse kXR_ServerError m hh
    exact ⟨_, _, msg, hmsg⟩

/-- Witness for c2_written_le_length at a concrete state: a request for 4
bytes with 3 already written rejects a 2-byte chunk without copying it. -/
theorem c2_witness :
    ({ offset := 0, reqLen := 4, written := 3, bufData := [9, 9, 9] : ReadOpState }.written ≤ 4) ∧
    ((CurlReadOp.Write { offset := 0, reqLen := 4, written := 3, bufData := [9, 9, 9] } [1, 2]).1.written = 3) := by
  have h := c2_written_le_length
    { offset := 0, reqLen := 4, written := 3, bufData := [9, 9, 9] } (by decide)
  exact ⟨by decide, by
    have h2 := (h.2 [1, 2] (by decide)).1
    simpa using h2⟩

/-- C3: if the start offset reported by the server differs from the requested
offset, the first body chunk (written = 0) makes the operation fail before any
byte is copied: written stays 0, the buffer contents are unchanged, done is
set, libcurl is told 0 bytes were consumed, and, when the handler is present,
a failure outcome is delivered. -/
theorem c3_offset_mismatch (s : ReadOpState) (chunk : List Nat)
    (h0 : s.written = 0) (hm : s.headers.offset ≠ s.offset) :
    (CurlReadOp.Write s chunk).1.written = 0 ∧
    (CurlReadOp.Write s chunk).1.bufData = s.bufData ∧
    (CurlReadOp.Write s chunk).1.done = true ∧
    (CurlReadOp.Write s chunk).2.2 = 0 ∧
    (s.handler = true →
      ∃ c n m, (CurlReadOp.Write s chunk).2.1 = some (.failure c n m)) := by
  obtain ⟨m, hw⟩ := CurlReadOp.write_fails s chunk (Or.inr (Or.inl ⟨h0, hm⟩))
  rw [hw]
  refine ⟨by rw [(CurlReadOp.fail_state s _ _ _).1, h0], (CurlReadOp.fail_state s _ _ _).2.1,
    (CurlReadOp.fail_state s _ _ _).2.2.2.2, rfl, ?_⟩
  intro hh
  obtain ⟨msg, hmsg⟩ := CurlReadOp.fail_delivers s errErrorResponse kXR_ServerError m hh
  exact ⟨_, _, msg, hmsg⟩

/-- Witness for c3_offset_mismatch: a server reporting offset 5 against a
request at offset 0 causes a copy-free failure on the first chunk. -/
theorem c3_witness :
    (CurlReadOp.Write { offset := 0, reqLen := 10, headers := { offset := 5 } } [1, 2]).1.written = 0 ∧
    (CurlReadOp.Write { offset := 0, reqLen := 10, headers := { offset := 5 } } [1, 2]).1.done = true := by
  have h := c3_offset_mismatch { offset := 0, reqLen := 10, headers := { offset := 5 } }
    [1, 2] (by decide) (by decide)
  exact ⟨h.1, h.2.2.1⟩

/-- Result of CurlReadOp::Setup: the operation state, the outcome delivered
during setup if any, the Range header attached to the transfer if any, and
whether Setup returned early without configuring a transfer. -/
structure SetupResult where
  state : ReadOpState
  outcome : Option Outcome
  rangeHeader : Option String
  shortCircuited : Bool
deriving DecidableEq

/-- CurlReadOp::Setup (CurlOps.cc): after the base-class transport setup
(external curl-option and timeout side effects, not modelled), a request with
m_op.second = 0 calls Success and returns immediately, before the Range
header is built or attached; otherwise the inclusive Range header
"bytes=first-(first+second-1)" is attached to the transfer. -/
def CurlReadOp.Setup (s : ReadOpState) : SetupResult :=
  if s.reqLen = 0 then
    let r := CurlReadOp.Success s
    ⟨r.1, r.2, none, true⟩
  else
    ⟨s, none,
     some ("Range: bytes=" ++ toString s.offset ++ "-" ++ toString (s.offset + s.reqLen - 1)),
     false⟩

/-- C8: a read constructed with requested length 0 is completed by Setup
itself: the handler receives a success payload carrying the requested offset,
zero bytes written and the buffer reference, no Range header is attached, and
Setup returns before configuring any transfer; the operation is left done
with its handler consumed. -/
theorem c8_zero_length_read (s : ReadOpState) (hlen : s.reqLen = 0)
    (hh : s.handler = true) (hw : s.written = 0) :
    (CurlReadOp.Setup s).outcome = some (.chunkInfo s.offset 0 s.bufData) ∧
    (CurlReadOp.Setup s).rangeHeader = none ∧
    (CurlReadOp.Setup s).shortCircuited = true ∧
    (CurlReadOp.Setup s).state.done = true ∧
    (CurlReadOp.Setup s).state.handler = false := by
  unfold CurlReadOp.Setup
  rw [if_pos hlen]
  simp [CurlReadOp.Success, hh, hw]

/-- Witness for c8_zero_length_read on a concrete zero-length request. -/
theorem c8_witness :
    (CurlReadOp.Setup { offset := 7, reqLen := 0 }).outcome =
      some (.chunkInfo 7 0 []) ∧
    (CurlReadOp.Setup { offset := 7, reqLen := 0 }).rangeHeader = none := by
  have h := c8_zero_length_read { offset := 7, reqLen := 0 } rfl rfl rfl
  exact ⟨h.1, h.2.1⟩

/-- CurlOperation::Header (CurlOps.cc), instantiated at the read operation
(whose virtual Fail override appends the request offset to a non-empty
message).  The external call m_headers.Parse is modelled by its two effects,
both supplied as inputs: the updated header-parser state and its Bool return
value.  The external helper HTTPStatusConvert, mapping an HTTP status code to
an XrdCl (error code, error number) pair, is the explicit parameter conv.
Returns the new state, the delivered outcome if any, and the Bool result the
method returns to HeaderCallback. -/
def CurlOperation.Header (conv : Nat → Nat × Nat) (s : ReadOpState)
    (parseResult : Bool) (hdrs : HeaderState) :
    ReadOpState × Option Outcome × Bool :=
  let s1 : ReadOpState := { s with headers := hdrs }
  if hdrs.headersDone ∧ HTTPStatusIsError hdrs.statusCode then
    let e := conv hdrs.statusCode
    let r := CurlReadOp.Fail s1 e.1 e.2 hdrs.statusMessage
    (r.1, r.2, parseResult)
  else (s1, none, parseResult)

/-- CurlOperation::HeaderCallback (CurlOps.cc): records that a header was
received, forwards the line to Header, and returns the full byte count of the
line when Header returned true and 0 otherwise; libcurl treats any return
value other than the byte count as an instruction to abort the transfer. -/
def CurlOperation.HeaderCallback (conv : Nat → Nat × Nat) (s : ReadOpState)
    (parseResult : Bool) (hdrs : HeaderState) (nbytes : Nat) :
    ReadOpState × Option Outcome × Nat :=
  let s1 : ReadOpState := { s with receivedHeader := true }
  let r := CurlOperation.Header conv s1 parseResult hdrs
  (r.1, r.2.1, if r.2.2 then nbytes else 0)

theorem CurlReadOp.fail_nodeliver (s : ReadOpState) (c n : Nat) (m : String)
    (h : s.handler = false) : (CurlReadOp.Fail s c n m).2 = none := by
  simp [CurlReadOp.Fail, h]

theorem CurlReadOp.write_nodeliver (t : ReadOpState) (chunk : List Nat)
    (h : t.handler = false) : (CurlReadOp.Write t chunk).2.1 = none := by
  by_cases hf : t.headers.multipart = true ∨ (t.written = 0 ∧ t.headers.offset ≠ t.offset) ∨
      t.reqLen < t.written + chunk.length
  · obtain ⟨m, hm⟩ := CurlReadOp.write_fails t chunk hf
    rw [hm]
    exact CurlReadOp.fail_nodeliver t _ _ m h
  · push_neg at hf
    unfold CurlReadOp.Write
    rw [if_neg (by simpa using hf.1), if_neg (by
        intro hc
        exact hc.2 (hf.2.1 hc.1)), if_neg (by omega)]

/-- C5 counterexample: an unparsable header line is not merely logged and
skipped — HeaderCallback consumes 0 of the 20 bytes handed to it, which is
the libcurl signal to abort the transfer, so an individual unparsable header
line is fatal to the transfer.  The operation object itself, however, neither
delivers an outcome nor marks itself done at this point. -/
theorem c5_counterexample :
    (CurlOperation.HeaderCallback (fun c => (errErrorResponse, c))
      { offset := 0, reqLen := 10 } false {} 20).2.2 = 0 ∧
    (0 : Nat) ≠ 20 ∧
    (CurlOperation.HeaderCallback (fun c => (errErrorResponse, c))
      { offset := 0, reqLen := 10 } false {} 20).2.1 = none ∧
    (CurlOperation.HeaderCallback (fun c => (errErrorResponse, c))
      { offset := 0, reqLen := 10 } false {} 20).1.done = false := by
  decide

/-- C5 (amended): when a header line fails to parse and the completed-headers
error check does not apply, the operation logs the failure and does not fail
itself — no outcome is delivered, the done flag and the handler are untouched
— but HeaderCallback returns 0 instead of the byte count of the line, which
signals the driver to abort the transfer rather than continue it. -/
theorem c5_parse_failure (conv : Nat → Nat × Nat) (s : ReadOpState)
    (hdrs : HeaderState) (nbytes : Nat)
    (hne : ¬(hdrs.headersDone = true ∧ HTTPStatusIsError hdrs.statusCode = true)) :
    (CurlOperation.HeaderCallback conv s false hdrs nbytes).2.1 = none ∧
    (CurlOperation.HeaderCallback conv s false hdrs nbytes).1.done = s.done ∧
    (CurlOperation.HeaderCallback conv s false hdrs nbytes).1.handler = s.handler ∧
    (CurlOperation.HeaderCallback conv s false hdrs nbytes).2.2 = 0 := by
  unfold CurlOperation.HeaderCallback CurlOperation.Header
  simp only [if_neg hne]
  simp

/-- Witness for c5_parse_failure at a concrete state and header line. -/
theorem c5_witness :
    (CurlOperation.HeaderCallback (fun c => (c, c)) { offset := 3, reqLen := 4 }
      false { statusCode := 200 } 17).2.1 = none ∧
    (CurlOperation.HeaderCallback (fun c => (c, c)) { offset := 3, reqLen := 4 }
      false { statusCode := 200 } 17).2.2 = 0 := by
  have h := c5_parse_failure (fun c => (c, c)) { offset := 3, reqLen := 4 }
    { statusCode := 200 } 17 (by decide)
  exact ⟨h.1, h.2.2.2⟩

/-- C4 (amended): once the headers are complete and carry an HTTP error
status, the operation immediately fails — the handler receives the mapped
error pair together with a message carrying the server status message (the
read-operation Fail override appends the request offset), the done flag is
set and the handler is consumed, so no later write callback delivers any
outcome; a later body chunk handed to the write callback is externally
invisible, though its bytes may still be copied into the buffer. -/
theorem c4_http_error_fails (conv : Nat → Nat × Nat) (s : ReadOpState) (p : Bool)
    (hdrs : HeaderState) (hdone : hdrs.headersDone = true)
    (herr : HTTPStatusIsError hdrs.statusCode = true)
    (hh : s.handler = true) (hmsg : hdrs.statusMessage ≠ "") :
    (CurlOperation.Header conv s p hdrs).2.1 =
      some (.failure (conv hdrs.statusCode).1 (conv hdrs.statusCode).2
        (hdrs.statusMessage ++ " (read operation at offset " ++ toString s.offset ++ ")")) ∧
    (CurlOperation.Header conv s p hdrs).1.done = true ∧
    (CurlOperation.Header conv s p hdrs).1.handler = false ∧
    (∀ t : ReadOpState, t.handler = false → ∀ chunk : List Nat,
      (CurlReadOp.Write t chunk).2.1 = none) := by
  refine ⟨?_, ?_, ?_, fun t ht chunk => CurlReadOp.write_nodeliver t chunk ht⟩ <;>
    simp [CurlOperation.Header, CurlReadOp.Fail, hdone, herr, hh, hmsg]

/-- Witness for c4_http_error_fails on a completed 500 response. -/
theorem c4_witness :
    (CurlOperation.Header (fun c => (c + 1, c)) { offset := 2, reqLen := 5 } false
      { headersDone := true, statusCode := 500, statusMessage := "ISE" }).2.1 =
      some (.failure 501 500 "ISE (read operation at offset 2)") := by
  have h := c4_http_error_fails (fun c => (c + 1, c)) { offset := 2, reqLen := 5 } false
    { headersDone := true, statusCode := 500, statusMessage := "ISE" }
    rfl (by decide) rfl (by decide)
  exact h.1

/-- Concrete header state for the C4 counterexample: a completed 404. -/
def c4hdrs : HeaderState :=
  { headersDone := true, statusCode := 404, statusMessage := "Not Found" }

/-- Concrete fresh read-operation state for the C4 counterexample. -/
def c4state : ReadOpState := { offset := 0, reqLen := 10 }

/-- State of the C4 counterexample operation right after the failing header. -/
def c4afterHeader : ReadOpState :=
  (CurlOperation.Header (fun c => (errErrorResponse, c)) c4state true c4hdrs).1

/-- C4 counterexample: after a completed 404 header makes the operation fail
and consume its handler, a body chunk handed to the write callback is still
processed — its byte is copied into the caller buffer, written becomes 1 and
the callback reports the byte consumed — so body bytes can be read after the
failure, contrary to the claim that no body bytes are processed after it. -/
theorem c4_counterexample :
    (CurlOperation.Header (fun c => (errErrorResponse, c)) c4state true c4hdrs).2.1 =
      some (.failure errErrorResponse 404 "Not Found (read operation at offset 0)") ∧
    c4afterHeader.done = true ∧
    (CurlReadOp.Write c4afterHeader [7]).1.written = 1 ∧
    (CurlReadOp.Write c4afterHeader [7]).1.bufData = [7] ∧
    (CurlReadOp.Write c4afterHeader [7]).2.2 = 1 := by
  decide

/-- A parsed XML element as exposed by the external tinyxml2 library: the
element name, the optional contained text (GetText), and the list of child
elements in document order (FirstChildElement / NextSiblingElement). -/
inductive XmlElem where
  | mk (name : String) (text : Option String) (children : List XmlElem)

/-- Name accessor of an XML element. -/
def XmlElem.name : XmlElem → String
  | .mk n _ _ => n

/-- Text accessor of an XML element. -/
def XmlElem.text : XmlElem → Option String
  | .mk _ t _ => t

/-- Child-list accessor of an XML element. -/
def XmlElem.children : XmlElem → List XmlElem
  | .mk _ _ c => c

/-- Models the external std function stoll as used on the text of a
getcontentlength element: faithful on strings of decimal digits, which are
the inputs the claims exercise; signs, whitespace, partial parses and the
exceptions of the real function are outside this model. -/
def stoll (s : String) : Int :=
  Int.ofNat (s.data.foldl (fun a c => a * 10 + (c.toNat - 48)) 0)

/-- One iteration of the child loop of CurlStatOp::ParseProp (CurlOps.cc): a
getcontentlength child under either accepted namespace prefix stores its
decimal text into m_length; a resourcetype child under either accepted
prefix stores into m_is_dir whether it has a D:collection child element.
The accumulator is the (m_length, m_is_dir) field pair. -/
def CurlStatOp.parsePropChild (acc : Int × Bool) (child : XmlElem) : Int × Bool :=
  if child.name = "D:getcontentlength" ∨ child.name = "lp1:getcontentlength" then
    match child.text with
    | some len => (stoll len, acc.2)
    | none => acc
  else if child.name = "D:resourcetype" ∨ child.name = "lp1:resourcetype" then
    (acc.1, (child.children.find? (fun c => c.name = "D:collection")).isSome)
  else acc

/-- CurlStatOp::ParseProp (CurlOps.cc): a null prop pointer yields (-1,
false); otherwise the children of prop are scanned in order, updating the
(m_length, m_is_dir) pair, whose final value is returned. -/
def CurlStatOp.ParseProp (acc : Int × Bool) (prop : Option XmlElem) : Int × Bool :=
  match prop with
  | none => (-1, false)
  | some p => p.children.foldl CurlStatOp.parsePropChild acc

/-- The propstat scan of CurlStatOp::GetStatInfo (CurlOps.cc): walk the
children of the response element, skipping anything that is not a
D:propstat, and inside each propstat look for the first D:prop child; a
later propstat is only consulted when every earlier one had no D:prop. -/
def CurlStatOp.findProp : List XmlElem → Option XmlElem
  | [] => none
  | child :: rest =>
    if child.name ≠ "D:propstat" then CurlStatOp.findProp rest
    else
      match child.children.find? (fun p => p.name = "D:prop") with
      | some prop => some prop
      | none => CurlStatOp.findProp rest

/-- State of a CurlStatOp: handler presence, done flag, whether the request
was issued as a PROPFIND, the memoizable m_length and m_is_dir fields, the
header-parser state, and the result of the external tinyxml2 parse of the
buffered response body (none models a parse error, XML_SUCCESS absent). -/
structure StatOpState where
  handler : Bool := true
  done : Bool := false
  is_propfind : Bool := false
  length : Int := -1
  is_dir : Bool := false
  headers : HeaderState := {}
  responseDoc : Option XmlElem := none

/-- CurlStatOp::GetStatInfo (CurlOps.cc): a plain (non-PROPFIND) stat takes
the size from the content-length header with the directory flag false; a
PROPFIND result is memoized once m_length is non-negative; otherwise the
buffered body must have parsed as XML with root D:multistatus containing a
D:response child, inside which a D:propstat child with a D:prop child is
located and decoded by ParseProp; every structural mismatch yields
(-1, false).  The length and is_dir fields are updated like the members. -/
def CurlStatOp.GetStatInfo (s : StatOpState) : StatOpState × (Int × Bool) :=
  if ¬s.is_propfind then
    ({ s with length := s.headers.contentLength }, (s.headers.contentLength, false))
  else if 0 ≤ s.length then
    (s, (s.length, s.is_dir))
  else
    match s.responseDoc with
    | none => (s, (-1, false))
    | some root =>
      if root.name ≠ "D:multistatus" then (s, (-1, false))
      else
        match root.children.find? (fun c => c.name = "D:response") with
        | none => (s, (-1, false))
        | some resp =>
          match CurlStatOp.findProp resp.children with
          | none => (s, (-1, false))
          | some prop =>
            let r := CurlStatOp.ParseProp (s.length, s.is_dir) (some prop)
            ({ s with length := r.1, is_dir := r.2 }, r)

/-- CurlOperation::Fail (CurlOps.cc) at the stat operation: marks the
operation done and, when the handler is still present, delivers the failure
status through it and clears it; later calls deliver nothing. -/
def CurlOperation.Fail (s : StatOpState) (errCode errNum : Nat) (msg : String) :
    StatOpState × Option Outcome :=
  let s1 : StatOpState := { s with done := true }
  if s1.handler then
    ({ s1 with handler := false }, some (.failure errCode errNum msg))
  else (s1, none)

/-- CurlStatOp::Success (CurlOps.cc): marks the operation done, computes the
stat info, fails with a server-protocol error when the size is negative, and
otherwise, when the handler is still present, delivers the StatInfo payload
and clears the handler.  The director-cache bookkeeping between the handler
check and the delivery only logs and feeds an external cache, and is not
modelled. -/
def CurlStatOp.Success (s : StatOpState) : StatOpState × Option Outcome :=
  let s1 : StatOpState := { s with done := true }
  let g := CurlStatOp.GetStatInfo s1
  if g.2.1 < 0 then
    CurlOperation.Fail g.1 errErrorResponse kXR_FSError "Server responded without object size"
  else if g.1.handler then
    ({ g.1 with handler := false }, some (.statInfo g.2.1 g.2.2))
  else (g.1, none)

/-- Structural malformedness of a buffered PROPFIND body, as the decode path
of GetStatInfo distinguishes it: the XML failed to parse, or the root is not
D:multistatus, or no D:response child exists, or no D:propstat with a D:prop
child exists under it. -/
def CurlStatOp.structurallyMalformed (doc : Option XmlElem) : Bool :=
  match doc with
  | none => true
  | some root =>
    if root.name ≠ "D:multistatus" then true
    else
      match root.children.find? (fun c => c.name = "D:response") with
      | none => true
      | some resp => (CurlStatOp.findProp resp.children).isNone

theorem CurlStatOp.getStatInfo_malformed (s : StatOpState)
    (hp : s.is_propfind = true) (hl : s.length < 0)
    (hm : CurlStatOp.structurallyMalformed s.responseDoc = true) :
    CurlStatOp.GetStatInfo s = (s, (-1, false)) := by
  unfold CurlStatOp.GetStatInfo
  rw [if_neg (by simp [hp]), if_neg (by omega)]
  unfold CurlStatOp.structurallyMalformed at hm
  cases hdoc : s.responseDoc with
  | none => rfl
  | some root =>
    rw [hdoc] at hm
    dsimp only at hm ⊢
    by_cases hr : root.name = "D:multistatus"
    · rw [if_neg (not_not_intro hr)] at hm
      rw [if_neg (not_not_intro hr)]
      cases hfind : root.children.find? (fun c => c.name = "D:response") with
      | none => rfl
      | some resp =>
        rw [hfind] at hm
        dsimp only at hm ⊢
        cases hfp : CurlStatOp.findProp resp.children with
        | none => rfl
        | some prop =>
          rw [hfp] at hm
          simp at hm
    · rw [if_pos hr]

theorem CurlStatOp.getStatInfo_preserves (t : StatOpState) :
    (CurlStatOp.GetStatInfo t).1.handler = t.handler ∧
    (CurlStatOp.GetStatInfo t).1.done = t.done := by
  unfold CurlStatOp.GetStatInfo
  repeat' split
  all_goals simp

theorem CurlStatOp.success_fails_neg (s : StatOpState) (hh : s.handler = true)
    (hneg : (CurlStatOp.GetStatInfo { s with done := true }).2.1 < 0) :
    (CurlStatOp.Success s).2 =
      some (.failure errErrorResponse kXR_FSError "Server responded without object size") := by
  unfold CurlStatOp.Success
  dsimp only
  rw [if_pos hneg]
  unfold CurlOperation.Fail
  dsimp only
  rw [if_pos (by
    rw [(CurlStatOp.getStatInfo_preserves { s with done := true }).1]
    exact hh)]

/-- C6: for a PROPFIND stat whose buffered body is structurally malformed (a
parse error, a root other than D:multistatus, or no response / propstat /
prop element), GetStatInfo yields the unknown size -1 with the directory
flag false — never a size of 0 — and CurlStatOp::Success then fails the
operation with the message that the server responded without an object size
instead of delivering a stat result. -/
theorem c6_malformed_propfind (s : StatOpState)
    (hp : s.is_propfind = true) (hl : s.length < 0)
    (hm : CurlStatOp.structurallyMalformed s.responseDoc = true)
    (hh : s.handler = true) :
    (CurlStatOp.GetStatInfo s).2 = (-1, false) ∧
    (CurlStatOp.Success s).2 =
      some (.failure errErrorResponse kXR_FSError "Server responded without object size") := by
  constructor
  · rw [CurlStatOp.getStatInfo_malformed s hp hl hm]
  · refine CurlStatOp.success_fails_neg s hh ?_
    rw [CurlStatOp.getStatInfo_malformed { s with done := true }
      (by simpa using hp) (by simpa using hl) (by simpa using hm)]
    show (-1 : Int) < 0
    norm_num

/-- Concrete malformed PROPFIND stat state: the body parsed but its root
element is html rather than D:multistatus. -/
def c6state : StatOpState :=
  { is_propfind := true, responseDoc := some (XmlElem.mk "html" none []) }

/-- Witness for c6_malformed_propfind: a body whose root element is not
D:multistatus fails the stat with the no-object-size message. -/
theorem c6_witness :
    (CurlStatOp.GetStatInfo c6state).2 = (-1, false) ∧
    (CurlStatOp.Success c6state).2 =
      some (.failure errErrorResponse kXR_FSError "Server responded without object size") := by
  exact c6_malformed_propfind c6state rfl (by decide) (by decide) rfl

/-- The two namespace-prefix spellings of the content-length element name
that CurlStatOp::ParseProp accepts. -/
def isClenName (nm : String) : Prop :=
  nm = "D:getcontentlength" ∨ nm = "lp1:getcontentlength"

/-- The two namespace-prefix spellings of the resourcetype element name that
CurlStatOp::ParseProp accepts. -/
def isRtypeName (nm : String) : Prop :=
  nm = "D:resourcetype" ∨ nm = "lp1:resourcetype"

theorem stoll_nonneg (s : String) : 0 ≤ stoll s := by
  unfold stoll
  exact Int.ofNat_nonneg _

theorem isRtypeName.not_clen {nm : String} (h : isRtypeName nm) : ¬ isClenName nm := by
  rcases h with h | h <;> subst h <;> intro hc <;> rcases hc with hc | hc <;> simp at hc

theorem CurlStatOp.parsePropChild_clen (acc : Int × Bool) (nm len : String)
    (sub : List XmlElem) (h : isClenName nm) :
    CurlStatOp.parsePropChild acc (XmlElem.mk nm (some len) sub) = (stoll len, acc.2) := by
  unfold isClenName at h
  simp only [CurlStatOp.parsePropChild, XmlElem.name, XmlElem.text]
  rw [if_pos h]

theorem CurlStatOp.parsePropChild_rtype (acc : Int × Bool) (nm : String)
    (txt : Option String) (sub : List XmlElem) (h : isRtypeName nm) :
    CurlStatOp.parsePropChild acc (XmlElem.mk nm txt sub) =
      (acc.1, (sub.find? (fun c => c.name = "D:collection")).isSome) := by
  have hnc := h.not_clen
  unfold isClenName at hnc
  unfold isRtypeName at h
  simp only [CurlStatOp.parsePropChild, XmlElem.name, XmlElem.text, XmlElem.children]
  rw [if_neg hnc, if_pos h]

theorem CurlStatOp.parsePropChild_fst (acc : Int × Bool) (e : XmlElem)
    (h : ¬ isClenName e.name) : (CurlStatOp.parsePropChild acc e).1 = acc.1 := by
  unfold isClenName at h
  unfold CurlStatOp.parsePropChild
  rw [if_neg h]
  split <;> rfl

theorem CurlStatOp.parsePropChild_snd (acc : Int × Bool) (e : XmlElem)
    (h : ¬ isRtypeName e.name) : (CurlStatOp.parsePropChild acc e).2 = acc.2 := by
  unfold isRtypeName at h
  unfold CurlStatOp.parsePropChild
  by_cases h1 : e.name = "D:getcontentlength" ∨ e.name = "lp1:getcontentlength"
  · rw [if_pos h1]
    split <;> rfl
  · rw [if_neg h1, if_neg h]

theorem CurlStatOp.foldl_fst_no_clen (post : List XmlElem) (acc : Int × Bool)
    (h : ∀ e ∈ post, ¬ isClenName e.name) :
    (post.foldl CurlStatOp.parsePropChild acc).1 = acc.1 := by
  induction post generalizing acc with
  | nil => rfl
  | cons e rest ih =>
    rw [List.foldl_cons]
    rw [ih _ (fun x hx => h x (List.mem_cons_of_mem e hx))]
    exact CurlStatOp.parsePropChild_fst acc e (h e (List.mem_cons_self e rest))

theorem CurlStatOp.foldl_snd_no_rtype (post : List XmlElem) (acc : Int × Bool)
    (h : ∀ e ∈ post, ¬ isRtypeName e.name) :
    (post.foldl CurlStatOp.parsePropChild acc).2 = acc.2 := by
  induction post generalizing acc with
  | nil => rfl
  | cons e rest ih =>
    rw [List.foldl_cons]
    rw [ih _ (fun x hx => h x (List.mem_cons_of_mem e hx))]
    exact CurlStatOp.parsePropChild_snd acc e (h e (List.mem_cons_self e rest))

/-- C9: exactly the two namespace-prefix spellings D: and lp1: are accepted
for the content-length and resourcetype element names.  First conjunct: a
prop containing a getcontentlength child under either spelling, with no later
content-length child, decodes its text as the size.  Second conjunct: for a
prop with a single text-bearing child, the text becomes the size exactly when
the child name is one of the two accepted content-length spellings.  Third
conjunct: a resourcetype child under either spelling whose children contain
the D:collection marker, with no later resourcetype child, sets the directory
flag.  Fourth conjunct: for a prop with a single resourcetype-like child
holding a D:collection marker, the directory flag is set exactly when the
child name is one of the two accepted resourcetype spellings. -/
theorem c9_two_spellings :
    (∀ (acc : Int × Bool) (pre post : List XmlElem) (nm t : String)
        (sub : List XmlElem),
      isClenName nm → (∀ e ∈ post, ¬ isClenName e.name) →
      (CurlStatOp.ParseProp acc (some (XmlElem.mk "D:prop" none
        (pre ++ XmlElem.mk nm (some t) sub :: post)))).1 = stoll t) ∧
    (∀ nm t : String,
      ((CurlStatOp.ParseProp (-1, false) (some (XmlElem.mk "D:prop" none
        [XmlElem.mk nm (some t) []]))).1 = stoll t ↔ isClenName nm)) ∧
    (∀ (acc : Int × Bool) (pre post : List XmlElem) (nm : String)
        (txt : Option String) (sub : List XmlElem),
      isRtypeName nm → (∀ e ∈ post, ¬ isRtypeName e.name) →
      (sub.find? (fun c => c.name = "D:collection")).isSome = true →
      (CurlStatOp.ParseProp acc (some (XmlElem.mk "D:prop" none
        (pre ++ XmlElem.mk nm txt sub :: post)))).2 = true) ∧
    (∀ nm : String,
      ((CurlStatOp.ParseProp (-1, false) (some (XmlElem.mk "D:prop" none
        [XmlElem.mk nm none [XmlElem.mk "D:collection" none []]]))).2 = true
        ↔ isRtypeName nm)) := by
  refine ⟨?_, ?_, ?_, ?_⟩
  · intro acc pre post nm t sub hnm hpost
    simp only [CurlStatOp.ParseProp, XmlElem.children, List.foldl_append, List.foldl_cons]
    rw [CurlStatOp.parsePropChild_clen _ nm t sub hnm]
    exact CurlStatOp.foldl_fst_no_clen post _ hpost
  · intro nm t
    constructor
    · intro hres
      by_contra hno
      rw [show (CurlStatOp.ParseProp (-1, false) (some (XmlElem.mk "D:prop" none
          [XmlElem.mk nm (some t) []]))).1 =
          (CurlStatOp.parsePropChild (-1, false) (XmlElem.mk nm (some t) [])).1 from rfl] at hres
      rw [CurlStatOp.parsePropChild_fst _ _
        (show ¬ isClenName (XmlElem.mk nm (some t) []).name from hno)] at hres
      have := stoll_nonneg t
      omega
    · intro hnm
      simp only [CurlStatOp.ParseProp, XmlElem.children, List.foldl_cons, List.foldl_nil]
      rw [CurlStatOp.parsePropChild_clen _ nm t [] hnm]
  · intro acc pre post nm txt sub hnm hpost hcol
    simp only [CurlStatOp.ParseProp, XmlElem.children, List.foldl_append, List.foldl_cons]
    rw [CurlStatOp.parsePropChild_rtype _ nm txt sub hnm]
    rw [CurlStatOp.foldl_snd_no_rtype post _ hpost]
    exact hcol
  · intro nm
    constructor
    · intro hres
      by_contra hno
      rw [show (CurlStatOp.ParseProp (-1, false) (some (XmlElem.mk "D:prop" none
          [XmlElem.mk nm none [XmlElem.mk "D:collection" none []]]))).2 =
          (CurlStatOp.parsePropChild (-1, false)
            (XmlElem.mk nm none [XmlElem.mk "D:collection" none []])).2 from rfl] at hres
      rw [CurlStatOp.parsePropChild_snd _ _
        (show ¬ isRtypeName
          (XmlElem.mk nm none [XmlElem.mk "D:collection" none []]).name from hno)] at hres
      simp at hres
    · intro hnm
      simp only [CurlStatOp.ParseProp, XmlElem.children, List.foldl_cons, List.foldl_nil]
      rw [CurlStatOp.parsePropChild_rtype _ nm none _ hnm]
      rfl

/-- Witness for c9_two_spellings: the lp1: spelling of getcontentlength with
text 1024 decodes to size 1024, and a D:collection marker under the D:
spelling of resourcetype sets the directory flag. -/
theorem c9_witness :
    (CurlStatOp.ParseProp (-1, false) (some (XmlElem.mk "D:prop" none
      [XmlElem.mk "lp1:getcontentlength" (some "1024") []]))).1 = stoll "1024" ∧
    stoll "1024" = 1024 ∧
    (CurlStatOp.ParseProp (-1, false) (some (XmlElem.mk "D:prop" none
      [XmlElem.mk "D:resourcetype" none [XmlElem.mk "D:collection" none []]]))).2 = true := by
  refine ⟨?_, by decide, ?_⟩
  · exact c9_two_spellings.1 (-1, false) [] [] "lp1:getcontentlength" "1024" []
      (Or.inr rfl) (by simp)
  · exact (c9_two_spellings.2.2.2 "D:resourcetype").mpr (Or.inl rfl)

/-- A terminal call the driver can make on an operation: Fail with an error
triple, or Success. -/
inductive TermEvent where
  | fail (errCode errNum : Nat) (msg : String)
  | success

/-- Dispatch one terminal call on a stat operation, as the driver does. -/
def CurlOperation.termStep (s : StatOpState) : TermEvent → StatOpState × Option Outcome
  | .fail c n m => CurlOperation.Fail s c n m
  | .success => CurlStatOp.Success s

/-- Run a sequence of terminal calls, collecting every outcome delivered
through the handler. -/
def CurlOperation.runTerm (s : StatOpState) : List TermEvent → StatOpState × List Outcome
  | [] => (s, [])
  | e :: evs =>
    let r := CurlOperation.termStep s e
    let rest := CurlOperation.runTerm r.1 evs
    (rest.1, r.2.toList ++ rest.2)

theorem CurlOperation.termStep_done (s : StatOpState) (e : TermEvent) :
    (CurlOperation.termStep s e).1.done = true := by
  cases e with
  | fail c n m =>
    unfold CurlOperation.termStep CurlOperation.Fail
    dsimp only
    split <;> rfl
  | success =>
    unfold CurlOperation.termStep CurlStatOp.Success
    dsimp only
    split
    · unfold CurlOperation.Fail
      dsimp only
      split <;> simp
    · split
      · exact (CurlStatOp.getStatInfo_preserves { s with done := true }).2
      · exact (CurlStatOp.getStatInfo_preserves { s with done := true }).2

theorem CurlOperation.termStep_deliver (s : StatOpState) (e : TermEvent)
    (h : s.handler = true) :
    (CurlOperation.termStep s e).2.isSome = true ∧
    (CurlOperation.termStep s e).1.handler = false := by
  cases e with
  | fail c n m =>
    unfold CurlOperation.termStep CurlOperation.Fail
    dsimp only
    rw [if_pos h]
    exact ⟨rfl, rfl⟩
  | success =>
    unfold CurlOperation.termStep CurlStatOp.Success
    dsimp only
    have hp := (CurlStatOp.getStatInfo_preserves { s with done := true }).1
    split
    · unfold CurlOperation.Fail
      dsimp only
      rw [if_pos (by rw [hp]; exact h)]
      exact ⟨rfl, rfl⟩
    · rw [if_pos (by rw [hp]; exact h)]
      exact ⟨rfl, rfl⟩

theorem CurlOperation.termStep_silent (s : StatOpState) (e : TermEvent)
    (h : s.handler = false) :
    (CurlOperation.termStep s e).2 = none ∧
    (CurlOperation.termStep s e).1.handler = false := by
  cases e with
  | fail c n m =>
    unfold CurlOperation.termStep CurlOperation.Fail
    dsimp only
    rw [if_neg (by simp [h])]
    exact ⟨rfl, h⟩
  | success =>
    unfold CurlOperation.termStep CurlStatOp.Success
    dsimp only
    have hp := (CurlStatOp.getStatInfo_preserves { s with done := true }).1
    split
    · unfold CurlOperation.Fail
      dsimp only
      rw [if_neg (by rw [hp]; simp [h])]
      exact ⟨rfl, by rw [hp]; exact h⟩
    · rw [if_neg (by rw [hp]; simp [h])]
      exact ⟨rfl, by rw [hp]; exact h⟩

theorem CurlOperation.runTerm_silent (evs : List TermEvent) (s : StatOpState)
    (h : s.handler = false) : (CurlOperation.runTerm s evs).2 = [] := by
  induction evs generalizing s with
  | nil => rfl
  | cons e rest ih =>
    have hs := CurlOperation.termStep_silent s e h
    simp only [CurlOperation.runTerm, hs.1, Option.toList_none, List.nil_append]
    exact ih _ hs.2

theorem CurlOperation.runTerm_done (evs : List TermEvent) (s : StatOpState)
    (h : s.done = true) : (CurlOperation.runTerm s evs).1.done = true := by
  induction evs generalizing s with
  | nil => exact h
  | cons e rest ih =>
    simp only [CurlOperation.runTerm]
    exact ih _ (CurlOperation.termStep_done s e)

/-- C1: the result handler receives exactly one outcome.  Starting from any
state whose handler is present, a nonempty sequence of terminal calls (Fail
or Success, in any mix) delivers exactly one outcome, the first call is the
one that delivers it and consumes the handler, every later call delivers
nothing, and the done flag, once set, is never cleared by further terminal
calls. -/
theorem c1_exactly_one_outcome (s : StatOpState) (hs : s.handler = true)
    (evs : List TermEvent) (hne : evs ≠ []) :
    (CurlOperation.runTerm s evs).2.length = 1 ∧
    (∀ e rest, evs = e :: rest →
      (CurlOperation.termStep s e).2.isSome = true ∧
      (CurlOperation.runTerm (CurlOperation.termStep s e).1 rest).2 = []) ∧
    (CurlOperation.runTerm s evs).1.done = true ∧
    (∀ (t : StatOpState) (evs2 : List TermEvent), t.done = true →
      (CurlOperation.runTerm t evs2).1.done = true) := by
  obtain ⟨e, rest, rfl⟩ : ∃ e rest, evs = e :: rest := by
    cases evs with
    | nil => exact absurd rfl hne
    | cons e rest => exact ⟨e, rest, rfl⟩
  have hd := CurlOperation.termStep_deliver s e hs
  have hsil := CurlOperation.runTerm_silent rest _ hd.2
  refine ⟨?_, ?_, ?_, fun t evs2 ht => CurlOperation.runTerm_done evs2 t ht⟩
  · simp only [CurlOperation.runTerm, hsil, List.append_nil]
    cases ho : (CurlOperation.termStep s e).2 with
    | none => rw [ho] at hd; simp at hd
    | some o => simp
  · intro e2 rest2 heq
    injection heq with h1 h2
    subst h1
    subst h2
    exact ⟨hd.1, hsil⟩
  · simp only [CurlOperation.runTerm]
    exact CurlOperation.runTerm_done rest _ (CurlOperation.termStep_done s e)

/-- Witness for c1_exactly_one_outcome: two Fail calls followed by a Success
on a fresh propfind-free stat operation deliver exactly one outcome. -/
theorem c1_witness :
    (CurlOperation.runTerm { } [TermEvent.fail 1 2 "boom", TermEvent.fail 3 4 "late",
      TermEvent.success]).2.length = 1 := by
  exact (c1_exactly_one_outcome { } rfl
    [TermEvent.fail 1 2 "boom", TermEvent.fail 3 4 "late", TermEvent.success]
    (by simp)).1

/-- State of a CurlOpenOp: the underlying stat-operation state plus the
inputs of the property-propagation step — the effective URL reported by the
external curl_easy_getinfo call (none models a null pointer), the
UseX509Auth flag, the broker URL (empty when unused), and whether the m_file
pointer is non-null. -/
structure OpenOpState where
  stat : StatOpState
  effectiveUrl : Option String := none
  useX509 : Bool := false
  brokerUrl : String := ""
  hasFile : Bool := true

/-- CurlOpenOp::Success (CurlOps.cc): marks the operation done, records the
effective URL, the X509-auth flag and the broker URL as properties on the
file handle (each under its guard), then computes the stat info; a directory
makes the operation fail with kXR_isDirectory, otherwise a non-negative size
is recorded as the ContentLength property and the stat success path runs.
The middle component of the result is the ordered list of SetProperty
(key, value) writes performed on the file handle. -/
def CurlOpenOp.Success (s : OpenOpState) : OpenOpState × List (String × String) × Option Outcome :=
  let st0 : StatOpState := { s.stat with done := true }
  let props1 : List (String × String) :=
    match s.effectiveUrl with
    | some u => if s.hasFile then [("LastURL", u)] else []
    | none => []
  let props2 : List (String × String) :=
    if s.useX509 ∧ s.hasFile then [("UseX509Auth", "true")] else []
  let props3 : List (String × String) :=
    if s.brokerUrl ≠ "" ∧ s.hasFile then [("BrokerURL", s.brokerUrl)] else []
  let g := CurlStatOp.GetStatInfo st0
  if g.2.2 then
    let r := CurlOperation.Fail g.1 errErrorResponse kXR_isDirectory "Cannot open a directory"
    ({ s with stat := r.1 }, props1 ++ props2 ++ props3, r.2)
  else
    let props4 : List (String × String) :=
      if 0 ≤ g.2.1 then [("ContentLength", toString g.2.1)] else []
    let r := CurlStatOp.Success g.1
    ({ s with stat := r.1 }, props1 ++ props2 ++ props3 ++ props4, r.2)

/-- C10: when the stat info marks the target a directory, CurlOpenOp::Success
fails with the cannot-open-a-directory message, yet the property writes made
earlier in the same call — LastURL from the effective URL, the UseX509Auth
flag, and the BrokerURL — are all still recorded on the file handle, in that
order; only the ContentLength write is skipped by the early return. -/
theorem c10_open_directory (s : OpenOpState) (u : String)
    (hu : s.effectiveUrl = some u) (hx : s.useX509 = true) (hb : s.brokerUrl ≠ "")
    (hf : s.hasFile = true) (hh : s.stat.handler = true)
    (hdir : (CurlStatOp.GetStatInfo { s.stat with done := true }).2.2 = true) :
    (CurlOpenOp.Success s).2.2 =
      some (.failure errErrorResponse kXR_isDirectory "Cannot open a directory") ∧
    (CurlOpenOp.Success s).2.1 =
      [("LastURL", u), ("UseX509Auth", "true"), ("BrokerURL", s.brokerUrl)] ∧
    (∀ p ∈ (CurlOpenOp.Success s).2.1, p.1 ≠ "ContentLength") := by
  have hp := (CurlStatOp.getStatInfo_preserves { s.stat with done := true }).1
  dsimp only at hp hdir
  have hlist : (CurlOpenOp.Success s).2.1 =
      [("LastURL", u), ("UseX509Auth", "true"), ("BrokerURL", s.brokerUrl)] := by
    unfold CurlOpenOp.Success
    dsimp only
    rw [hu]
    dsimp only
    rw [if_pos hdir]
    rw [if_pos hf]
    rw [if_pos (show s.useX509 = true ∧ s.hasFile = true from ⟨hx, hf⟩)]
    rw [if_pos (show s.brokerUrl ≠ "" ∧ s.hasFile = true from ⟨hb, hf⟩)]
    rfl
  have hout : (CurlOpenOp.Success s).2.2 =
      some (.failure errErrorResponse kXR_isDirectory "Cannot open a directory") := by
    unfold CurlOpenOp.Success
    dsimp only
    rw [if_pos hdir]
    unfold CurlOperation.Fail
    dsimp only
    rw [if_pos (by rw [hp]; simpa using hh)]
  refine ⟨hout, hlist, ?_⟩
  rw [hlist]
  intro p hp2
  simp only [List.mem_cons, List.not_mem_nil, or_false] at hp2
  rcases hp2 with h | h | h
  · rw [h]
    exact (by decide : ("LastURL" : String) ≠ "ContentLength")
  · rw [h]
    exact (by decide : ("UseX509Auth" : String) ≠ "ContentLength")
  · rw [h]
    exact (by decide : ("BrokerURL" : String) ≠ "ContentLength")

/-- Concrete open-operation state for the C10 witness: a memoized propfind
stat marking a directory, with all three property inputs present. -/
def c10state : OpenOpState :=
  { stat := { is_propfind := true, length := 5, is_dir := true },
    effectiveUrl := some "https://origin.example/dir",
    useX509 := true,
    brokerUrl := "https://broker.example" }

/-- Witness for c10_open_directory at the concrete directory open. -/
theorem c10_witness :
    (CurlOpenOp.Success c10state).2.2 =
      some (.failure errErrorResponse kXR_isDirectory "Cannot open a directory") ∧
    (CurlOpenOp.Success c10state).2.1 =
      [("LastURL", "https://origin.example/dir"), ("UseX509Auth", "true"),
        ("BrokerURL", "https://broker.example")] := by
  have h := c10_open_directory c10state "https://origin.example/dir"
    rfl rfl (by decide) rfl rfl (by decide)
  exact ⟨h.1, h.2.1⟩

/-- Modelled from the spec: the fixed page size XrdSys::PageSize of the
external XRootD headers, 4096 bytes. -/
def pgPageSize : Nat := 4096

/-- The page loop of CurlPgReadOp::Success (CurlOps.cc): one iteration per
page takes pgsize = min(PageSize, remaining) bytes as the page and advances
past them; the recursion argument is the page counter of the loop. -/
def pgChunks : Nat → List Nat → List (List Nat)
  | 0, _ => []
  | n + 1, data =>
    let pgsize := min pgPageSize data.length
    data.take pgsize :: pgChunks n (data.drop pgsize)

/-- The page count nbpages computed by CurlPgReadOp::Success: written /
PageSize, plus one when a remainder exists. -/
def nbpages (written : Nat) : Nat :=
  written / pgPageSize + (if written % pgPageSize ≠ 0 then 1 else 0)

/-- The checksum list built by CurlPgReadOp::Success, parametrized by the
external CRC-32C routine XrdOucCRC::Calc32C applied to each page. -/
def pgCksums (crc : List Nat → Nat) (written : Nat) (data : List Nat) : List Nat :=
  (pgChunks (nbpages written) data).map crc

/-- CurlPgReadOp::Success (CurlOps.cc): marks the operation done and, when
the handler is present, delivers a PageInfo payload carrying the request
offset, the byte count written, the buffer, and the per-page checksum list
over the received bytes, then clears the handler. -/
def CurlPgReadOp.Success (crc : List Nat → Nat) (s : ReadOpState) :
    ReadOpState × Option Outcome :=
  let s1 : ReadOpState := { s with done := true }
  if s1.handler then
    ({ s1 with handler := false },
     some (.pageInfo s.offset s.written (pgCksums crc s.written s.bufData)))
  else (s1, none)

theorem List.take_min_length {α : Type} (l : List α) (n : Nat) :
    l.take (min n l.length) = l.take n := by
  rcases le_total n l.length with h | h
  · rw [min_eq_left h]
  · rw [min_eq_right h, List.take_length, List.take_of_length_le h]

theorem List.drop_min_length {α : Type} (l : List α) (n : Nat) :
    l.drop (min n l.length) = l.drop n := by
  rcases le_total n l.length with h | h
  · rw [min_eq_left h]
  · rw [min_eq_right h, List.drop_length, List.drop_eq_nil_of_le h]

theorem pgChunks_succ (n : Nat) (data : List Nat) :
    pgChunks (n + 1) data =
      data.take pgPageSize :: pgChunks n (data.drop pgPageSize) := by
  conv_lhs => unfold pgChunks
  dsimp only
  rw [List.take_min_length, List.drop_min_length]

theorem pgChunks_length (n : Nat) (data : List Nat) :
    (pgChunks n data).length = n := by
  induction n generalizing data with
  | zero => rfl
  | succ k ih =>
    rw [pgChunks_succ, List.length_cons, ih]

theorem pgChunks_get (n : Nat) (data : List Nat) (i : Nat) (hi : i < n) :
    (pgChunks n data).get? i = some ((data.drop (i * pgPageSize)).take pgPageSize) := by
  induction n generalizing data i with
  | zero => omega
  | succ k ih =>
    rw [pgChunks_succ]
    cases i with
    | zero => simp
    | succ j =>
      rw [List.get?_cons_succ, ih _ j (by omega), List.drop_drop]
      congr 2
      ring

theorem pgCksums_length (crc : List Nat → Nat) (w : Nat) (data : List Nat) :
    (pgCksums crc w data).length = nbpages w := by
  unfold pgCksums
  rw [List.length_map, pgChunks_length]

/-- C7: for a page-read that received written bytes, Success delivers a
PageInfo payload whose checksum list has one entry per 4096-byte page of the
received data, rounded up; entry i is the checksum of page i (bytes
i*PageSize up to the next page boundary or the end of data); and when any
byte was received, the last page covers exactly written mod PageSize bytes,
or a full page when the remainder is zero. -/
theorem c7_page_checksums (crc : List Nat → Nat) (s : ReadOpState)
    (hh : s.handler = true) (hlen : s.bufData.length = s.written) :
    (CurlPgReadOp.Success crc s).2 =
      some (.pageInfo s.offset s.written (pgCksums crc s.written s.bufData)) ∧
    (pgCksums crc s.written s.bufData).length =
      (s.written + pgPageSize - 1) / pgPageSize ∧
    (∀ i, i < (pgCksums crc s.written s.bufData).length →
      (pgCksums crc s.written s.bufData).get? i =
        some (crc ((s.bufData.drop (i * pgPageSize)).take pgPageSize))) ∧
    (0 < s.written →
      ((s.bufData.drop (((pgCksums crc s.written s.bufData).length - 1) * pgPageSize)).take
          pgPageSize).length =
        if s.written % pgPageSize = 0 then pgPageSize else s.written % pgPageSize) := by
  refine ⟨?_, ?_, ?_, ?_⟩
  · unfold CurlPgReadOp.Success
    dsimp only
    rw [if_pos hh]
  · rw [pgCksums_length]
    unfold nbpages pgPageSize
    split <;> omega
  · intro i hi
    rw [pgCksums_length] at hi
    unfold pgCksums
    rw [List.get?_map, pgChunks_get _ _ i hi]
    rfl
  · intro hw
    rw [pgCksums_length, List.length_take, List.length_drop, hlen]
    rw [Nat.min_def]
    unfold nbpages pgPageSize
    repeat' split
    all_goals omega

/-- Witness for c7_page_checksums: three received bytes form a single short
page whose checksum (here a sum standing in for the injected CRC-32C
routine) is delivered in a singleton list. -/
theorem c7_witness :
    (CurlPgReadOp.Success (fun l => l.foldl (fun a b => a + b) 0)
      { offset := 2, reqLen := 3, written := 3, bufData := [1, 2, 3] }).2 =
      some (.pageInfo 2 3 [6]) ∧
    (pgCksums (fun l => l.foldl (fun a b => a + b) 0) 3 [1, 2, 3]).length = 1 := by
  have h := c7_page_checksums (fun l => l.foldl (fun a b => a + b) 0)
    { offset := 2, reqLen := 3, written := 3, bufData := [1, 2, 3] } rfl rfl
  constructor
  · rw [h.1]
    decide
  · rw [h.2.1]
    decide

end Pelican
